import Mathlib

/-!
Verification of the signal-aws CLI (TerraConstructs/signal-aws).

This file gives a shallow embedding of the signal-dispatch orchestration
flow: configuration validation (`ParseConfig`), the command executor
(`DefaultExecutor.Run`), the orchestration function (`run`) together with
the exit-code mapping of `main` (`mainExitCode`), and the SQS publisher's
transport setup (`SQSPublisher.setup`).  External effects (the child
process, the metadata service, the queue send) are modelled by an
environment record `Env` describing the results the collaborators return,
and `run` additionally produces a `RunTrace` recording which collaborators
were invoked and with what arguments.
-/

namespace SignalAWS

/-- Mirrors the Go `Config` struct: the flag values after `flag.Parse`,
with `InstanceID`, `Region`, `LogFormat`, `LogLevel` as in the newest
version of the configuration (the one the `run` function consumes).
Durations are in nanoseconds, as Go's `time.Duration`. -/
structure Config where
  QueueURL : String
  ID : String
  Exec : String
  Status : String
  InstanceID : String
  Region : String
  Retries : Int
  PublishTimeout : Int
  Timeout : Int
  LogFormat : String
  LogLevel : String
  deriving Repr, DecidableEq

/-- The flag defaults of `ParseConfig`: empty strings for the string
flags, `retries` 3, `publish-timeout` 10s, `timeout` 30s, `log-format`
"console", `log-level` "info". -/
def defaultConfig : Config :=
  { QueueURL := ""
    ID := ""
    Exec := ""
    Status := ""
    InstanceID := ""
    Region := ""
    Retries := 3
    PublishTimeout := 10000000000
    Timeout := 30000000000
    LogFormat := "console"
    LogLevel := "info" }

/-- The validation chain `ParseConfig` performs after `flag.Parse`,
over the parsed flag values: requires `--queue-url` and `--id`, requires
at least one of `--exec`/`--status`, restricts `--status` to
SUCCESS/FAILURE when provided, and validates `--log-format` and
`--log-level`.  Errors are the exact Go error strings. -/
def ParseConfig (cfg : Config) : Except String Config :=
  if cfg.QueueURL = "" then
    .error "--queue-url is required"
  else if cfg.ID = "" then
    .error "--id is required"
  else if cfg.Exec = "" ∧ cfg.Status = "" then
    .error "either --exec or --status must be provided"
  else if cfg.Status ≠ "" ∧ cfg.Status ≠ "SUCCESS" ∧ cfg.Status ≠ "FAILURE" then
    .error "--status must be either SUCCESS or FAILURE"
  else if cfg.LogFormat ≠ "json" ∧ cfg.LogFormat ≠ "console" then
    .error "--log-format must be either json or console"
  else if cfg.LogLevel ≠ "debug" ∧ cfg.LogLevel ≠ "info" ∧
      cfg.LogLevel ≠ "warn" ∧ cfg.LogLevel ≠ "error" then
    .error "--log-level must be one of: debug, info, warn, error"
  else
    .ok cfg

/-- Outcome of `exec.Command("sh", "-c", cmdLine).Run()` as the Go
executor observes it: either the shell ran and the child exited with a
code (a nil error from `cmd.Run` means code 0, an `ExitError` carries the
non-zero code), or the shell itself could not be launched. -/
inductive CmdOutcome where
  | exited (code : Int)
  | launchFailure (msg : String)
  deriving Repr, DecidableEq

/-- `DefaultExecutor.Run`: a completed child yields its exit code with a
nil error; a launch failure yields exit code -1 with a non-nil error. -/
def DefaultExecutor.Run : CmdOutcome → Int × Option String
  | .exited code => (code, none)
  | .launchFailure msg => (-1, some msg)

/-- Mirrors the Go `PublishInput` struct handed to `Publisher.Publish`. -/
structure PublishInput where
  QueueURL : String
  SignalID : String
  InstanceID : String
  Status : String
  Region : String
  PublishTimeout : Int
  Retries : Int
  deriving Repr, DecidableEq

/-- Mirrors the Go `RunResult` struct produced by `run`. -/
structure RunResult where
  Status : String
  ShouldExit : Bool
  ExitCode : Int
  deriving Repr, DecidableEq

/-- Results the external collaborators return in a given run: what
`executor.Run` returns, what the IMDS client returns for instance ID and
region, and the error (if any) `publisher.Publish` returns. -/
structure Env where
  execResult : Int × Option String
  imdsInstance : Except String String
  imdsRegion : Except String String
  publishResult : Option String
  deriving Repr

/-- Trace of collaborator invocations made by `run`: the command lines
passed to `executor.Run`, the number of `GetInstanceID` and `GetRegion`
calls, and the `PublishInput`s passed to `publisher.Publish`. -/
structure RunTrace where
  executorCalls : List String
  getInstanceIDCalls : Nat
  getRegionCalls : Nat
  publishCalls : List PublishInput
  deriving Repr, DecidableEq

/-- The value-error pair `run` returns, together with the trace. -/
structure RunOutput where
  result : RunResult
  err : Option String
  trace : RunTrace
  deriving Repr, DecidableEq

/-- The status-determination block of `run`: if `cfg.Status` is empty the
executor runs `cfg.Exec`; a non-nil error or non-zero exit code yields
FAILURE (staging `ShouldExit = true`, `ExitCode = 1`), exit code 0 yields
SUCCESS.  Otherwise the explicit status is used and the executor is not
invoked.  Returns the status, the staged `RunResult`, and the executor
call list. -/
def determineStatus (cfg : Config) (env : Env) : String × RunResult × List String :=
  if cfg.Status = "" then
    let exitCode := env.execResult.1
    let e := env.execResult.2
    let status :=
      if e.isSome then "FAILURE"
      else if exitCode = 0 then "SUCCESS"
      else "FAILURE"
    let result : RunResult :=
      if status = "FAILURE" then
        { Status := status, ShouldExit := true, ExitCode := 1 }
      else
        { Status := status, ShouldExit := false, ExitCode := 0 }
    (status, result, [cfg.Exec])
  else
    (cfg.Status, { Status := cfg.Status, ShouldExit := false, ExitCode := 0 }, [])

/-- The region-resolution block of `run`: a non-empty `cfg.Region` is used
directly (no IMDS call); otherwise `GetRegion` is called once, and on
error the region is left empty and the flow continues.  Returns the
region and the number of `GetRegion` calls. -/
def resolveRegion (cfg : Config) (env : Env) : String × Nat :=
  if cfg.Region ≠ "" then
    (cfg.Region, 0)
  else
    match env.imdsRegion with
    | .error _ => ("", 1)
    | .ok r => (r, 1)

/-- The tail of `run` after the instance ID is resolved: resolves the
region, assembles the `PublishInput`, and calls `publisher.Publish`; a
publish error is wrapped and returned as `run`'s error. -/
def runAfterInstance (cfg : Config) (env : Env) (status : String)
    (result : RunResult) (execCalls : List String) (iidCalls : Nat)
    (instanceID : String) : RunOutput :=
  let rg := resolveRegion cfg env
  let publishInput : PublishInput :=
    { QueueURL := cfg.QueueURL
      SignalID := cfg.ID
      InstanceID := instanceID
      Status := status
      Region := rg.1
      PublishTimeout := cfg.PublishTimeout
      Retries := cfg.Retries }
  let trace : RunTrace :=
    { executorCalls := execCalls
      getInstanceIDCalls := iidCalls
      getRegionCalls := rg.2
      publishCalls := [publishInput] }
  match env.publishResult with
  | some e =>
      { result := result, err := some ("failed to publish signal: " ++ e), trace := trace }
  | none =>
      { result := result, err := none, trace := trace }

/-- The `run` function of the `cmd` package: determines the status,
resolves the instance ID (a non-empty `cfg.InstanceID` is used verbatim
with no IMDS call; an IMDS failure aborts with a wrapped error before any
publish), resolves the region, and publishes the signal. -/
def run (cfg : Config) (env : Env) : RunOutput :=
  let sd := determineStatus cfg env
  let status := sd.1
  let result := sd.2.1
  let execCalls := sd.2.2
  if cfg.InstanceID ≠ "" then
    runAfterInstance cfg env status result execCalls 0 cfg.InstanceID
  else
    match env.imdsInstance with
    | .error e =>
        { result := result
          err := some ("failed to get instance ID: " ++ e)
          trace :=
            { executorCalls := execCalls
              getInstanceIDCalls := 1
              getRegionCalls := 0
              publishCalls := [] } }
    | .ok iid => runAfterInstance cfg env status result execCalls 1 iid

/-- The exit-code mapping of `main` around `run`: a non-nil error from
`run` exits 2; otherwise the process exits `result.ExitCode` when
`result.ShouldExit` is set and returns normally (exit 0) when it is
not. -/
def mainExitCode (cfg : Config) (env : Env) : Int :=
  let out := run cfg env
  match out.err with
  | some _ => 2
  | none => if out.result.ShouldExit then out.result.ExitCode else 0

/-- Mirrors the SQS `MessageAttributeValue` fields the publisher sets. -/
structure MessageAttributeValue where
  DataType : String
  StringValue : String
  deriving Repr, DecidableEq

/-- Mirrors the `sqs.SendMessageInput` the publisher constructs; the
attribute map is listed in the order written in the source. -/
structure SendMessageInput where
  QueueUrl : String
  MessageBody : String
  MessageAttributes : List (String × MessageAttributeValue)
  deriving Repr, DecidableEq

/-- Everything `SQSPublisher.Publish` configures before calling
`SendMessage`: the retryer's maximum attempt count, the timeout of the
nested publish context, and the request. -/
structure TransportSetup where
  maxAttempts : Int
  publishCtxTimeout : Int
  request : SendMessageInput
  deriving Repr, DecidableEq

/-- `SQSPublisher.Publish`'s transport setup: the AWS retryer is wrapped
with `retry.AddWithMaxAttempts(_, input.Retries + 1)` (AWS counts
attempts, not retries), the publish context carries
`input.PublishTimeout`, and the request has a fixed message body with
exactly the three string attributes `signal_id`, `instance_id`,
`status`. -/
def SQSPublisher.setup (input : PublishInput) : TransportSetup :=
  { maxAttempts := input.Retries + 1
    publishCtxTimeout := input.PublishTimeout
    request :=
      { QueueUrl := input.QueueURL
        MessageBody := "tcons-signal message"
        MessageAttributes :=
          [ ("signal_id", { DataType := "String", StringValue := input.SignalID })
          , ("instance_id", { DataType := "String", StringValue := input.InstanceID })
          , ("status", { DataType := "String", StringValue := input.Status }) ] } }

/-- Concrete configuration that runs a command (no explicit status). -/
def wCfgExec : Config :=
  { defaultConfig with QueueURL := "q", ID := "sig", Exec := "./setup.sh" }

/-- Concrete configuration with an explicit FAILURE status and no exec. -/
def wCfgStatus : Config :=
  { defaultConfig with QueueURL := "q", ID := "sig", Status := "FAILURE" }

/-- Concrete configuration with an instance-ID override. -/
def wCfgOverride : Config :=
  { defaultConfig with
    QueueURL := "q"
    ID := "sig"
    Exec := "./setup.sh"
    InstanceID := "i-abc" }

/-- Concrete configuration supplying both `--exec` and a valid `--status`. -/
def conflictingConfig : Config :=
  { defaultConfig with
    QueueURL := "q"
    ID := "sig"
    Exec := "echo hello"
    Status := "SUCCESS" }

/-- Environment in which every collaborator succeeds. -/
def wEnvOK : Env :=
  { execResult := (0, none)
    imdsInstance := .ok "i-123"
    imdsRegion := .ok "us-east-1"
    publishResult := none }

/-- Environment in which the child command exits 2 and all else succeeds. -/
def wEnvCmdFail : Env := { wEnvOK with execResult := (2, none) }

/-- Environment in which the child command exits 2 and the publish fails. -/
def wEnvCmdFailPubFail : Env :=
  { wEnvOK with
    execResult := (2, none)
    publishResult := some "boom" }

/-- Environment in which the IMDS instance-ID lookup fails. -/
def wEnvIMDSFail : Env := { wEnvOK with imdsInstance := .error "imds down" }

/-- Environment in which the IMDS region lookup fails. -/
def wEnvRegionFail : Env := { wEnvOK with imdsRegion := .error "region down" }

/-- The publish input `run` produces for `wCfgExec` under `wEnvOK`. -/
def wPub : PublishInput :=
  { QueueURL := "q"
    SignalID := "sig"
    InstanceID := "i-123"
    Status := "SUCCESS"
    Region := "us-east-1"
    PublishTimeout := 10000000000
    Retries := 3 }

end SignalAWS

namespace SignalAWS

/-- The result record built by the status-determination block carries the
same status string that is later handed to the publisher. -/
theorem determineStatus_status_eq (cfg : Config) (env : Env) :
    (determineStatus cfg env).2.1.Status = (determineStatus cfg env).1 := by
  unfold determineStatus
  split
  · simp
    split <;> simp
  · simp

/-- Exit-code staging invariant of the status-determination block:
`ShouldExit = true` is always staged together with `ExitCode = 1`, and
`ShouldExit = false` with `ExitCode = 0`. -/
theorem determineStatus_exit_staging (cfg : Config) (env : Env) :
    ((determineStatus cfg env).2.1.ShouldExit = true →
      (determineStatus cfg env).2.1.ExitCode = 1) ∧
    ((determineStatus cfg env).2.1.ShouldExit = false →
      (determineStatus cfg env).2.1.ExitCode = 0) := by
  unfold determineStatus
  split
  · simp
    split <;> simp
  · simp

/-- The `RunResult` returned by `run` is exactly the one staged by the
status-determination block; no later step modifies it. -/
theorem run_result_eq (cfg : Config) (env : Env) :
    (run cfg env).result = (determineStatus cfg env).2.1 := by
  unfold run runAfterInstance
  by_cases h : cfg.InstanceID = "" <;>
    rcases h1 : env.imdsInstance with e | iid <;>
    rcases h2 : env.publishResult with _ | e2 <;>
    simp [h, h1, h2]

/-- C1: whenever the publisher is invoked and its `Publish` call returns a
non-nil error, the process terminates with exit code 2, regardless of the
computed status and of any exit code 1 staged for a failed command. -/
theorem publish_failure_exit_two (cfg : Config) (env : Env)
    (hcall : (run cfg env).trace.publishCalls ≠ [])
    (hfail : env.publishResult.isSome = true) :
    mainExitCode cfg env = 2 := by
  rcases h2 : env.publishResult with _ | e
  · rw [h2] at hfail; simp at hfail
  · by_cases h : cfg.InstanceID = ""
    · rcases h1 : env.imdsInstance with e1 | iid
      · simp [run, h, h1] at hcall
      · simp [mainExitCode, run, runAfterInstance, h, h1, h2]
    · simp [mainExitCode, run, runAfterInstance, h, h2]

/-- C1 witness: a run whose command fails (staging exit code 1) and whose
publish then fails exits with code 2. -/
theorem publish_failure_exit_two_witness :
    mainExitCode wCfgExec wEnvCmdFailPubFail = 2 :=
  publish_failure_exit_two wCfgExec wEnvCmdFailPubFail (by decide) (by decide)

/-- C2: whenever the publisher is invoked and `Publish` returns nil, the
process exits 1 when the status was derived from a failed command
(`ShouldExit` set) and 0 otherwise. -/
theorem publish_success_exit_codes (cfg : Config) (env : Env)
    (hcall : (run cfg env).trace.publishCalls ≠ [])
    (hok : env.publishResult = none) :
    ((run cfg env).result.ShouldExit = true → mainExitCode cfg env = 1) ∧
    ((run cfg env).result.ShouldExit = false → mainExitCode cfg env = 0) := by
  have hres := run_result_eq cfg env
  have hstage := determineStatus_exit_staging cfg env
  by_cases h : cfg.InstanceID = ""
  · rcases h1 : env.imdsInstance with e1 | iid
    · simp [run, h, h1] at hcall
    · constructor <;> intro hse
      · have := hstage.1 (by rw [hres] at hse; exact hse)
        simp [mainExitCode, run, runAfterInstance, h, h1, hok] at hse ⊢
        simp [run, h, h1, runAfterInstance, hok] at hres
        simp [hse, hres, this]
      · have := hstage.2 (by rw [hres] at hse; exact hse)
        simp [mainExitCode, run, runAfterInstance, h, h1, hok] at hse ⊢
        simp [hse]
  · constructor <;> intro hse
    · have := hstage.1 (by rw [hres] at hse; exact hse)
      simp [mainExitCode, run, runAfterInstance, h, hok] at hse ⊢
      simp [run, h, runAfterInstance, hok] at hres
      simp [hse, hres, this]
    · have := hstage.2 (by rw [hres] at hse; exact hse)
      simp [mainExitCode, run, runAfterInstance, h, hok] at hse ⊢
      simp [hse]

/-- C2 witness: a failed command followed by a successful publish exits
with code 1. -/
theorem publish_success_exit_codes_witness :
    mainExitCode wCfgExec wEnvCmdFail = 1 :=
  (publish_success_exit_codes wCfgExec wEnvCmdFail (by decide) rfl).1 (by decide)

/-- C3: with `exec_command` set and `status` unset, the published status
is SUCCESS iff the executor returns exit code 0 with a nil error; a
non-nil error or a non-zero exit code yields FAILURE with `ShouldExit`
set and exit code 1 staged; `DefaultExecutor.Run` turns a launch failure
into exit code -1 with a non-nil error; and every publish call carries
the computed status. -/
theorem exec_status_determination (cfg : Config) (env : Env)
    (hexec : cfg.Exec ≠ "") (hst : cfg.Status = "") :
    ((run cfg env).result.Status = "SUCCESS" ↔ env.execResult = (0, none)) ∧
    ((env.execResult.2.isSome = true ∨ env.execResult.1 ≠ 0) →
      (run cfg env).result.Status = "FAILURE" ∧
      (run cfg env).result.ShouldExit = true ∧
      (run cfg env).result.ExitCode = 1) ∧
    (∀ m : String, DefaultExecutor.Run (CmdOutcome.launchFailure m) = (-1, some m)) ∧
    (∀ p ∈ (run cfg env).trace.publishCalls, p.Status = (run cfg env).result.Status) := by
  clear hexec
  have hres := run_result_eq cfg env
  rcases hex : env.execResult with ⟨ec, e⟩
  refine ⟨?_, ?_, fun m => rfl, ?_⟩
  · rw [hres]
    rcases e with _ | msg
    · by_cases hec : ec = 0 <;> simp [determineStatus, hst, hex, hec]
    · simp [determineStatus, hst, hex]
  · intro hfail
    rw [hres]
    rcases e with _ | msg
    · rcases hfail with hfail | hfail
      · simp at hfail
      · simp at hfail
        simp [determineStatus, hst, hex, hfail]
    · simp [determineStatus, hst, hex]
  · intro p hp
    rw [hres, determineStatus_status_eq]
    by_cases h : cfg.InstanceID = ""
    · rcases h1 : env.imdsInstance with e1 | iid
      · simp [run, h, h1] at hp
      · rcases h2 : env.publishResult with _ | e2 <;>
          simp [run, runAfterInstance, h, h1, h2] at hp <;> simp [hp]
    · rcases h2 : env.publishResult with _ | e2 <;>
        simp [run, runAfterInstance, h, h2] at hp <;> simp [hp]

/-- C3 witness: with exit code 0 and nil error the published status is
SUCCESS. -/
theorem exec_status_determination_witness :
    (run wCfgExec wEnvOK).result.Status = "SUCCESS" :=
  (exec_status_determination wCfgExec wEnvOK (by decide) rfl).1.mpr rfl

/-- C4: with an explicit SUCCESS or FAILURE status, the executor is never
invoked, `ShouldExit` stays false, every publish call carries the
explicit status, and a successful publish yields exit code 0 even for
FAILURE. -/
theorem explicit_status_flow (cfg : Config) (env : Env)
    (hst : cfg.Status = "SUCCESS" ∨ cfg.Status = "FAILURE") :
    (run cfg env).trace.executorCalls = [] ∧
    (run cfg env).result.ShouldExit = false ∧
    (∀ p ∈ (run cfg env).trace.publishCalls, p.Status = cfg.Status) ∧
    ((run cfg env).trace.publishCalls ≠ [] → env.publishResult = none →
      mainExitCode cfg env = 0) := by
  have hne : cfg.Status ≠ "" := by rcases hst with h | h <;> simp [h]
  have hsd : determineStatus cfg env =
      (cfg.Status, { Status := cfg.Status, ShouldExit := false, ExitCode := 0 }, []) := by
    simp [determineStatus, hne]
  refine ⟨?_, ?_, ?_, ?_⟩
  · by_cases h : cfg.InstanceID = ""
    · rcases h1 : env.imdsInstance with e1 | iid
      · simp [run, h, h1, hsd]
      · rcases h2 : env.publishResult with _ | e2 <;>
          simp [run, runAfterInstance, h, h1, h2, hsd]
    · rcases h2 : env.publishResult with _ | e2 <;>
        simp [run, runAfterInstance, h, h2, hsd]
  · rw [run_result_eq, hsd]
  · intro p hp
    by_cases h : cfg.InstanceID = ""
    · rcases h1 : env.imdsInstance with e1 | iid
      · simp [run, h, h1] at hp
      · rcases h2 : env.publishResult with _ | e2 <;>
          simp [run, runAfterInstance, h, h1, h2, hsd] at hp <;> simp [hp]
    · rcases h2 : env.publishResult with _ | e2 <;>
        simp [run, runAfterInstance, h, h2, hsd] at hp <;> simp [hp]
  · intro hcall hok
    by_cases h : cfg.InstanceID = ""
    · rcases h1 : env.imdsInstance with e1 | iid
      · simp [run, h, h1] at hcall
      · simp [mainExitCode, run, runAfterInstance, h, h1, hok, hsd]
    · simp [mainExitCode, run, runAfterInstance, h, hok, hsd]

/-- C4 witness: explicit FAILURE with a successful publish exits 0. -/
theorem explicit_status_flow_witness :
    mainExitCode wCfgStatus wEnvOK = 0 :=
  (explicit_status_flow wCfgStatus wEnvOK (Or.inr rfl)).2.2.2 (by decide) rfl

/-- C5: a non-empty `InstanceID` override suppresses the IMDS lookup and
is published verbatim; with no override, an IMDS failure means the
publisher is never invoked and the process exits 2. -/
theorem instance_identity_policy (cfg : Config) (env : Env) :
    (cfg.InstanceID ≠ "" →
      (run cfg env).trace.getInstanceIDCalls = 0 ∧
      ∀ p ∈ (run cfg env).trace.publishCalls, p.InstanceID = cfg.InstanceID) ∧
    (cfg.InstanceID = "" → ∀ e, env.imdsInstance = Except.error e →
      (run cfg env).trace.publishCalls = [] ∧ mainExitCode cfg env = 2) := by
  constructor
  · intro h
    constructor
    · rcases h2 : env.publishResult with _ | e2 <;>
        simp [run, runAfterInstance, h, h2]
    · intro p hp
      rcases h2 : env.publishResult with _ | e2 <;>
        simp [run, runAfterInstance, h, h2] at hp <;> simp [hp]
  · intro h e he
    constructor
    · simp [run, h, he]
    · simp [mainExitCode, run, h, he]

/-- C5 witness: with an override the IMDS lookup count is 0, and with no
override and a failing lookup the process exits 2. -/
theorem instance_identity_policy_witness :
    (run wCfgOverride wEnvOK).trace.getInstanceIDCalls = 0 ∧
    mainExitCode wCfgExec wEnvIMDSFail = 2 :=
  ⟨((instance_identity_policy wCfgOverride wEnvOK).1 (by decide)).1,
   ((instance_identity_policy wCfgExec wEnvIMDSFail).2 rfl "imds down" rfl).2⟩

/-- C6: with an empty region override and a failing IMDS region lookup,
the flow continues: `GetRegion` is called once, the publish still
proceeds, and the published region is the empty string. -/
theorem region_failure_nonfatal (cfg : Config) (env : Env)
    (hreg : cfg.Region = "") (hfail : ∃ e, env.imdsRegion = Except.error e)
    (hinst : cfg.InstanceID ≠ "" ∨ ∃ iid, env.imdsInstance = Except.ok iid) :
    (run cfg env).trace.getRegionCalls = 1 ∧
    ∃ p, (run cfg env).trace.publishCalls = [p] ∧ p.Region = "" := by
  obtain ⟨e, he⟩ := hfail
  have hrg : resolveRegion cfg env = ("", 1) := by
    simp [resolveRegion, hreg, he]
  rcases hinst with h | ⟨iid, hiid⟩
  · rcases h2 : env.publishResult with _ | e2 <;>
      simp [run, runAfterInstance, h, h2, hrg]
  · by_cases h : cfg.InstanceID = ""
    · rcases h2 : env.publishResult with _ | e2 <;>
        simp [run, runAfterInstance, h, hiid, h2, hrg]
    · rcases h2 : env.publishResult with _ | e2 <;>
        simp [run, runAfterInstance, h, h2, hrg]

/-- C6 witness: a failing region lookup still leads to one publish call
and counts one `GetRegion` invocation. -/
theorem region_failure_nonfatal_witness :
    (run wCfgExec wEnvRegionFail).trace.getRegionCalls = 1 :=
  (region_failure_nonfatal wCfgExec wEnvRegionFail rfl ⟨"region down", rfl⟩
    (Or.inr ⟨"i-123", rfl⟩)).1

/-- C7 counterexample: an argument list providing both `--exec` and a
valid `--status` is accepted by `ParseConfig` without error, and the
orchestration then proceeds to a publish call, contradicting the claim
that such a combination is a configuration error detected before any
work begins. -/
theorem conflicting_exec_status_accepted :
    ParseConfig conflictingConfig = Except.ok conflictingConfig ∧
    conflictingConfig.Exec ≠ "" ∧ conflictingConfig.Status ≠ "" ∧
    (run conflictingConfig wEnvOK).trace.publishCalls.length = 1 :=
  ⟨rfl, by decide, by decide, by decide⟩

/-- C7 amended: providing both `exec_command` and `status` is not itself
a configuration error; for such argument lists `ParseConfig` succeeds
exactly when the required fields are present, the status value is
SUCCESS or FAILURE, and the log settings are valid. -/
theorem conflict_not_config_error (cfg : Config)
    (hexec : cfg.Exec ≠ "") (hstatus : cfg.Status ≠ "") :
    (ParseConfig cfg = Except.ok cfg ↔
      (cfg.QueueURL ≠ "" ∧ cfg.ID ≠ "" ∧
       (cfg.Status = "SUCCESS" ∨ cfg.Status = "FAILURE") ∧
       (cfg.LogFormat = "json" ∨ cfg.LogFormat = "console") ∧
       (cfg.LogLevel = "debug" ∨ cfg.LogLevel = "info" ∨
        cfg.LogLevel = "warn" ∨ cfg.LogLevel = "error"))) := by
  unfold ParseConfig
  split_ifs with h1 h2 h3 h4 h5 h6 <;> simp_all <;> tauto

/-- C7 amended witness: the conflicting configuration satisfies the
validation conditions and parses successfully. -/
theorem conflict_not_config_error_witness :
    ParseConfig conflictingConfig = Except.ok conflictingConfig :=
  (conflict_not_config_error conflictingConfig (by decide) (by decide)).mpr
    (by decide)

/-- C8: every publish call carries the configured retries and publish
timeout unchanged, and the publisher configures its transport with
maximum attempt count retries + 1 and a publish context bounded by the
publish timeout. -/
theorem retries_passthrough (cfg : Config) (env : Env) :
    ∀ p ∈ (run cfg env).trace.publishCalls,
      p.Retries = cfg.Retries ∧
      p.PublishTimeout = cfg.PublishTimeout ∧
      (SQSPublisher.setup p).maxAttempts = cfg.Retries + 1 ∧
      (SQSPublisher.setup p).publishCtxTimeout = cfg.PublishTimeout := by
  intro p hp
  have hfields : p.Retries = cfg.Retries ∧ p.PublishTimeout = cfg.PublishTimeout := by
    by_cases h : cfg.InstanceID = ""
    · rcases h1 : env.imdsInstance with e1 | iid
      · simp [run, h, h1] at hp
      · rcases h2 : env.publishResult with _ | e2 <;>
          simp [run, runAfterInstance, h, h1, h2] at hp <;> simp [hp]
    · rcases h2 : env.publishResult with _ | e2 <;>
        simp [run, runAfterInstance, h, h2] at hp <;> simp [hp]
  exact ⟨hfields.1, hfields.2, by simp [SQSPublisher.setup, hfields.1],
    by simp [SQSPublisher.setup, hfields.2]⟩

/-- C8 witness: the default retries value 3 reaches the publisher and
yields a transport configured for 4 total attempts. -/
theorem retries_passthrough_witness :
    wPub.Retries = wCfgExec.Retries ∧
    wPub.PublishTimeout = wCfgExec.PublishTimeout ∧
    (SQSPublisher.setup wPub).maxAttempts = wCfgExec.Retries + 1 ∧
    (SQSPublisher.setup wPub).publishCtxTimeout = wCfgExec.PublishTimeout :=
  retries_passthrough wCfgExec wEnvOK wPub (by decide)

/-- C9: every message handed to the queue send operation carries exactly
the three string attributes signal_id (the configured signal ID),
instance_id (the resolved instance identifier: the override verbatim, or
the IMDS value), and status (the computed status), with a fixed constant
message body. -/
theorem message_attribute_schema (cfg : Config) (env : Env) :
    ∀ p ∈ (run cfg env).trace.publishCalls,
      (SQSPublisher.setup p).request.MessageAttributes =
        [ ("signal_id", { DataType := "String", StringValue := cfg.ID })
        , ("instance_id", { DataType := "String", StringValue := p.InstanceID })
        , ("status",
            { DataType := "String"
              StringValue := (run cfg env).result.Status }) ] ∧
      (SQSPublisher.setup p).request.MessageBody = "tcons-signal message" ∧
      p.SignalID = cfg.ID ∧
      (cfg.InstanceID ≠ "" → p.InstanceID = cfg.InstanceID) ∧
      (cfg.InstanceID = "" → env.imdsInstance = Except.ok p.InstanceID) := by
  intro p hp
  have hall : p.SignalID = cfg.ID ∧ p.Status = (run cfg env).result.Status ∧
      (cfg.InstanceID ≠ "" → p.InstanceID = cfg.InstanceID) ∧
      (cfg.InstanceID = "" → env.imdsInstance = Except.ok p.InstanceID) := by
    have hres := run_result_eq cfg env
    rw [hres, determineStatus_status_eq]
    by_cases h : cfg.InstanceID = ""
    · rcases h1 : env.imdsInstance with e1 | iid
      · simp [run, h, h1] at hp
      · rcases h2 : env.publishResult with _ | e2 <;>
          simp [run, runAfterInstance, h, h1, h2] at hp <;> simp [hp, h, h1]
    · rcases h2 : env.publishResult with _ | e2 <;>
        simp [run, runAfterInstance, h, h2] at hp <;> simp [hp, h]
  refine ⟨?_, rfl, hall.1, hall.2.2.1, hall.2.2.2⟩
  simp [SQSPublisher.setup, hall.1, hall.2.1]

/-- C9 witness: the message built for the all-success run has the fixed
constant body. -/
theorem message_attribute_schema_witness :
    (SQSPublisher.setup wPub).request.MessageBody = "tcons-signal message" :=
  (message_attribute_schema wCfgExec wEnvOK wPub (by decide)).2.1

/-- C10: an argument list providing queue URL, signal ID, a non-empty
exec command, and a valid explicit status parses without error, and the
explicit status takes precedence: the executor is never invoked and the
published status is the explicit one. -/
theorem both_provided_status_precedence (cfg : Config) (env : Env)
    (hq : cfg.QueueURL ≠ "") (hid : cfg.ID ≠ "") (hexec : cfg.Exec ≠ "")
    (hstatus : cfg.Status = "SUCCESS" ∨ cfg.Status = "FAILURE")
    (hlf : cfg.LogFormat = "json" ∨ cfg.LogFormat = "console")
    (hll : cfg.LogLevel = "debug" ∨ cfg.LogLevel = "info" ∨
      cfg.LogLevel = "warn" ∨ cfg.LogLevel = "error") :
    ParseConfig cfg = Except.ok cfg ∧
    (run cfg env).trace.executorCalls = [] ∧
    (run cfg env).result.Status = cfg.Status := by
  have hne : cfg.Status ≠ "" := by rcases hstatus with h | h <;> simp [h]
  have hsd : determineStatus cfg env =
      (cfg.Status, { Status := cfg.Status, ShouldExit := false, ExitCode := 0 }, []) := by
    simp [determineStatus, hne]
  refine ⟨?_, ?_, ?_⟩
  · unfold ParseConfig
    split_ifs with h1 h2 h3 h4 h5 h6 <;> simp_all
  · by_cases h : cfg.InstanceID = ""
    · rcases h1 : env.imdsInstance with e1 | iid
      · simp [run, h, h1, hsd]
      · rcases h2 : env.publishResult with _ | e2 <;>
          simp [run, runAfterInstance, h, h1, h2, hsd]
    · rcases h2 : env.publishResult with _ | e2 <;>
        simp [run, runAfterInstance, h, h2, hsd]
  · rw [run_result_eq, hsd]

/-- C10 witness: the configuration with both exec and SUCCESS status
skips the executor and publishes SUCCESS. -/
theorem both_provided_status_precedence_witness :
    (run conflictingConfig wEnvOK).trace.executorCalls = [] ∧
    (run conflictingConfig wEnvOK).result.Status = conflictingConfig.Status := by
  have h := both_provided_status_precedence conflictingConfig wEnvOK
    (by decide) (by decide) (by decide) (by decide) (by decide) (by decide)
  exact ⟨h.2.1, h.2.2⟩

end SignalAWS
